import Mathlib

/-!
# Verification of the obstacles-depth vision service

A shallow embedding of the Go module `viam-modules/obstacles-depth`
(package `obstaclesdepth`, one source file) into Lean 4, together with
theorems settling the specification claims about it.

Modelling conventions:

* Go machine floats that only ever hold exact small values in this code
  (depth values are `uint16` cast to `float64`; configuration fields are
  finite decimals) are modelled as `Int` / `ℚ`.
* Fallible Go calls return `Except VisError _` (or `Option` where only
  `err != nil` is inspected by this module).
* External collaborators are modelled at their call boundary:
  a `Camera` records the outcomes this module can observe from
  `src.Properties(ctx)` and `camera.DecodeImageFromCamera`, an `Image`
  records whether `rimage.ConvertImageToDepthMap` succeeds and with which
  depth map, and a dependency set is an association list name ↦ camera.
  The two external algorithm entry points used by the calibrated path
  (`depthadapter.ToPointCloud` and `segmentation.ApplyERCCLToPointCloud`)
  are taken as explicit function parameters, so every theorem about the
  calibrated path holds for an arbitrary behaviour of that external code.
* Methods with a pointer receiver that may write the receiver are modelled
  by explicit state passing: they return the post-call `ObsDepth` state.
* `sort.Slice(depData, less)` with `less i j := depData[i] < depData[j]`
  sorts the slice ascending in place; since `dm.Data()` hands the
  depth map's data to the caller as a Go slice (a view of the backing
  array), the depth map's cells are in ascending order after the call.
  An ascending arrangement of a list over `Nat` is unique, so it is
  modelled by `List.insertionSort (· ≤ ·)`.
* `int(0.5 * float64(n))` is exact for every attainable length `n`
  (`float64` represents integers below `2^53` exactly and halving is
  exact), hence it is modelled as `n / 2` on `Nat`.
-/

namespace ObstaclesDepth

/-- `r3.Vector` as used here: all coordinates that ever arise are exact
integers (0, -1, and `uint16` depth values cast to `float64`). -/
structure Vec3 where
  x : Int
  y : Int
  z : Int
deriving DecidableEq

/-- `transform.PinholeCameraIntrinsics`: the module only tests this value
for presence and passes it through, so the fields are carried opaquely. -/
structure PinholeCameraIntrinsics where
  width : Int
  height : Int
  fx : ℚ
  fy : ℚ
  ppx : ℚ
  ppy : ℚ
deriving DecidableEq

/-- `rimage.DepthMap`: the grid of per-pixel `uint16` distance readings,
row-major; `dm.Data()` returns exactly these cells (zero cells included,
meaning "no return"). -/
structure DepthMap where
  data : List Nat
deriving DecidableEq

/-- An image as this module observes it: `rimage.ConvertImageToDepthMap`
either yields a depth map or fails. -/
structure Image where
  depth : Option DepthMap
deriving DecidableEq

/-- `camera.Properties` restricted to the one field this module reads. -/
structure CamProperties where
  intrinsicParams : Option PinholeCameraIntrinsics
deriving DecidableEq

/-- A camera collaborator, recorded by the outcomes of the two calls this
module makes on it: `Properties` (`none` = the call returned an error) and
`DecodeImageFromCamera` (`none` = the call returned an error). -/
structure Camera where
  camName : String
  propertiesResult : Option CamProperties
  imageResult : Option Image
deriving DecidableEq

/-- The error outcomes the module can produce (each constructor stands for
one distinct `errors.New` / `errors.Errorf` site, plus the wrapped
clustering-config validation failure and the camera-lookup failure). -/
inductive VisError where
  | nilConfig
  | invalidClusteringConfig
  | cameraNotFound (cameraName : String)
  | couldNotGetImage (cameraName : String)
  | couldNotConvertImage
  | emptyDepthData
  | noIntrinsicsFound
  | noCameraSpecified
  | unimplemented
deriving DecidableEq

/-- `segmentation.ErCCLConfig` (the fields set by this module). -/
structure ErCCLConfig where
  minPtsInPlane : Int
  minPtsInSegment : Int
  maxDistFromPlane : ℚ
  normalVec : Vec3
  angleTolerance : ℚ
  clusteringRadius : Int
  clusteringStrictness : ℚ
deriving DecidableEq

/-- `ObsDepthConfig` (the module's JSON configuration surface; these are
exactly its seven fields). -/
structure ObsDepthConfig where
  minPtsInPlane : Int
  minPtsInSegment : Int
  maxDistFromPlane : ℚ
  clusteringRadius : Int
  clusteringStrictness : ℚ
  angleTolerance : ℚ
  defaultCamera : String
deriving DecidableEq

/-- `ObsDepthConfig.Validate`: collects the default camera as a required
dependency and never reports an error. -/
def ObsDepthConfig.validate (cfg : ObsDepthConfig) :
    List String × List String × Option VisError :=
  (if cfg.defaultCamera ≠ "" then [cfg.defaultCamera] else [], [], none)

/-- `spatialmath.NewPoint(vec, label)`: the only geometry this module
builds itself. -/
inductive Geometry where
  | point (v : Vec3) (label : String)
deriving DecidableEq

/-- `vis.Object` restricted to the field this module sets. -/
structure VisObject where
  geometry : Geometry
deriving DecidableEq

/-- `objectdetection.Detection`: never constructed by this module. -/
inductive Detection where
deriving DecidableEq

/-- `classification.Classification`: never constructed by this module. -/
inductive Classification where
deriving DecidableEq

/-- A point cloud, as handed between the two external calibrated-path
algorithms; its structure is irrelevant to this module. -/
abbrev PointCloud : Type := List Vec3

/-- The service state (`obsDepth` struct). The logger performs no
state-visible action and is omitted; `deps` is the dependency set held for
per-call camera resolution. -/
structure ObsDepth where
  clusteringConf : ErCCLConfig
  intrinsics : Option PinholeCameraIntrinsics
  deps : List (String × Camera)
  resName : String
  defaultCamera : Option Camera
deriving DecidableEq

/-- `camera.FromDependencies`: resolve a camera by name in the dependency
set. -/
def cameraFromDependencies (deps : List (String × Camera)) (n : String) :
    Option Camera :=
  (deps.lookup n)

/-- The clustering configuration built by `registerObstaclesDepth`
(source lines 99–107): all numeric fields copied from the service
configuration, `NormalVec` hard-coded to `(0, -1, 0)`. -/
def buildClusteringConf (conf : ObsDepthConfig) : ErCCLConfig :=
  { minPtsInPlane := conf.minPtsInPlane
    minPtsInSegment := conf.minPtsInSegment
    maxDistFromPlane := conf.maxDistFromPlane
    normalVec := { x := 0, y := -1, z := 0 }
    angleTolerance := conf.angleTolerance
    clusteringRadius := conf.clusteringRadius
    clusteringStrictness := conf.clusteringStrictness }

/-- Modelled from the spec: `segmentation.ErCCLConfig.CheckValid` is
external-library code whose body is not in this repository's sources; the
spec's ClusterConfig invariant (§3) is: MinPtsInPlane ≥ 1,
MinPtsInSegment ≥ 1, MaxDistFromPlane > 0, ClusteringRadius > 0,
ClusteringStrictness ∈ (0, 1], AngleTolerance ≥ 0. -/
def ErCCLConfig.checkValid (c : ErCCLConfig) : Bool :=
  decide (1 ≤ c.minPtsInPlane) && decide (1 ≤ c.minPtsInSegment) &&
  decide (0 < c.maxDistFromPlane) && decide (0 < c.clusteringRadius) &&
  decide (0 < c.clusteringStrictness) && decide (c.clusteringStrictness ≤ 1) &&
  decide (0 ≤ c.angleTolerance)

/-- `registerObstaclesDepth` (source lines 85–131): rejects a nil config,
builds the clustering config and validates it, resolves the default camera
if one is named, and assembles the service state. -/
def registerObstaclesDepth (resName : String) (conf : Option ObsDepthConfig)
    (deps : List (String × Camera)) : Except VisError ObsDepth :=
  match conf with
  | none => .error .nilConfig
  | some conf =>
    let cfg := buildClusteringConf conf
    if cfg.checkValid then
      if conf.defaultCamera = "" then
        .ok { clusteringConf := cfg, intrinsics := none, deps := deps,
              resName := resName, defaultCamera := none }
      else
        match cameraFromDependencies deps conf.defaultCamera with
        | some cam =>
          .ok { clusteringConf := cfg, intrinsics := none, deps := deps,
                resName := resName, defaultCamera := some cam }
        | none => .error (.cameraNotFound conf.defaultCamera)
    else .error .invalidClusteringConfig

/-- The ascending in-place sort performed by `sort.Slice` on the depth
data (see the header notes: the ascending arrangement over `Nat` is
unique, so insertion sort models it exactly). -/
def sortDepthData (l : List Nat) : List Nat :=
  List.insertionSort (· ≤ ·) l

/-- The body of `obsDepthNoIntrinsics` from the point where the depth map
exists (source lines 161–173): reject an empty data slice, sort the data
slice in place ascending, take index `int(0.5 * float64(len))`, and emit
one object whose geometry is the point `(0, 0, median)` with empty label.
Returns the post-call depth map (its cells are the sorted data, since the
slice aliases the map's backing array) alongside the result. -/
def fallbackMedianCore (dm : DepthMap) :
    DepthMap × Except VisError (List VisObject) :=
  if dm.data.length = 0 then (dm, .error .emptyDepthData)
  else
    let sorted := sortDepthData dm.data
    let med := sorted.length / 2
    (⟨sorted⟩,
     .ok [⟨.point ⟨0, 0, (sorted.getD med 0 : Int)⟩ ""⟩])

/-- `obsDepthNoIntrinsics` (source lines 152–174): decode an image from
the camera, convert it to a depth map, and run the median computation. -/
def obsDepthNoIntrinsics (cam : Camera) : Except VisError (List VisObject) :=
  match cam.imageResult with
  | none => .error (.couldNotGetImage cam.camName)
  | some img =>
    match img.depth with
    | none => .error .couldNotConvertImage
    | some dm => (fallbackMedianCore dm).2

/-- `obsDepthWithIntrinsics` (source lines 178–193), parameterised by the
two external algorithms it delegates to. -/
def obsDepthWithIntrinsics
    (toPointCloud : DepthMap → PinholeCameraIntrinsics → PointCloud)
    (applyERCCL : PointCloud → ErCCLConfig → Except VisError (List VisObject))
    (o : ObsDepth) (cam : Camera) : Except VisError (List VisObject) :=
  match o.intrinsics with
  | none => .error .noIntrinsicsFound
  | some intr =>
    match cam.imageResult with
    | none => .error (.couldNotGetImage cam.camName)
    | some img =>
      match img.depth with
      | none => .error .couldNotConvertImage
      | some dm => applyERCCL (toPointCloud dm intr) o.clusteringConf

/-- `buildObsDepth` (source lines 134–149): inspect the camera's
properties; on a properties error or absent intrinsics take the fallback
path, otherwise store the intrinsics on the service (line 146 writes
`o.intrinsics`) and take the calibrated path. Returns the post-call
service state alongside the result. -/
def buildObsDepth
    (toPointCloud : DepthMap → PinholeCameraIntrinsics → PointCloud)
    (applyERCCL : PointCloud → ErCCLConfig → Except VisError (List VisObject))
    (o : ObsDepth) (cam : Camera) :
    ObsDepth × Except VisError (List VisObject) :=
  match cam.propertiesResult with
  | none => (o, obsDepthNoIntrinsics cam)
  | some props =>
    match props.intrinsicParams with
    | none => (o, obsDepthNoIntrinsics cam)
    | some intr =>
      let o2 := { o with intrinsics := some intr }
      (o2, obsDepthWithIntrinsics toPointCloud applyERCCL o2 cam)

/-- `GetObjectPointClouds` (source lines 199–216): resolve the camera (an
explicit name through the dependency set; otherwise the default camera;
otherwise fail), then run the segmenter built by `buildObsDepth`. -/
def GetObjectPointClouds
    (toPointCloud : DepthMap → PinholeCameraIntrinsics → PointCloud)
    (applyERCCL : PointCloud → ErCCLConfig → Except VisError (List VisObject))
    (s : ObsDepth) (cameraName : String) :
    ObsDepth × Except VisError (List VisObject) :=
  if cameraName ≠ "" then
    match cameraFromDependencies s.deps cameraName with
    | none => (s, .error (.cameraNotFound cameraName))
    | some cam => buildObsDepth toPointCloud applyERCCL s cam
  else
    match s.defaultCamera with
    | some cam => buildObsDepth toPointCloud applyERCCL s cam
    | none => (s, .error .noCameraSpecified)

/-- `vision.Properties` as returned by `GetProperties`. -/
structure VisionProperties where
  classificationSupported : Bool
  detectionSupported : Bool
  objectPCDsSupported : Bool
deriving DecidableEq

/-- `GetProperties` (source lines 218–224). -/
def GetProperties (s : ObsDepth) : Except VisError VisionProperties :=
  .ok { classificationSupported := false, detectionSupported := false,
        objectPCDsSupported := true }

/-- `viscapture.CaptureOptions` restricted to the fields this module
reads. -/
structure CaptureOptions where
  returnImage : Bool
  returnObject : Bool
deriving DecidableEq

/-- `viscapture.VisCapture`. Go slice/interface fields distinguish nil
(zero value, `none`) from a populated value (`some`); in particular
`some []` models a non-nil empty slice. -/
structure VisCapture where
  image : Option Image
  objects : Option (List VisObject)
  detections : Option (List Detection)
  classifications : Option (List Classification)
deriving DecidableEq

/-- `CaptureAllFromCamera` (source lines 226–263): resolve the camera as
in `GetObjectPointClouds`; start from the zero `VisCapture`; decode an
image only when `ReturnImage` is set; compute objects only when
`ReturnObject` is set (via `GetObjectPointClouds`, which re-resolves the
camera name and may update the service state); always set `Detections`
and `Classifications` to non-nil empty collections. Returns the post-call
service state alongside the result. -/
def CaptureAllFromCamera
    (toPointCloud : DepthMap → PinholeCameraIntrinsics → PointCloud)
    (applyERCCL : PointCloud → ErCCLConfig → Except VisError (List VisObject))
    (s : ObsDepth) (cameraName : String) (opts : CaptureOptions) :
    ObsDepth × Except VisError VisCapture :=
  let camR : Except VisError Camera :=
    if cameraName ≠ "" then
      match cameraFromDependencies s.deps cameraName with
      | none => .error (.cameraNotFound cameraName)
      | some cam => .ok cam
    else
      match s.defaultCamera with
      | some cam => .ok cam
      | none => .error .noCameraSpecified
  match camR with
  | .error e => (s, .error e)
  | .ok cam =>
    let imgR : Except VisError (Option Image) :=
      if opts.returnImage then
        match cam.imageResult with
        | none => .error (.couldNotGetImage cam.camName)
        | some img => .ok (some img)
      else .ok none
    match imgR with
    | .error e => (s, .error e)
    | .ok imgOpt =>
      if opts.returnObject then
        match GetObjectPointClouds toPointCloud applyERCCL s cameraName with
        | (s2, .error e) => (s2, .error e)
        | (s2, .ok objs) =>
          (s2, .ok { image := imgOpt, objects := some objs,
                     detections := some [], classifications := some [] })
      else
        (s, .ok { image := imgOpt, objects := none,
                  detections := some [], classifications := some [] })

/-- `DetectionsFromCamera` (source lines 272–274). -/
def DetectionsFromCamera (s : ObsDepth) (cameraName : String) :
    Except VisError (List Detection) :=
  .error .unimplemented

/-- `Detections` (source lines 275–277). -/
def Detections (s : ObsDepth) (img : Image) :
    Except VisError (List Detection) :=
  .error .unimplemented

/-- `ClassificationsFromCamera` (source lines 278–280). -/
def ClassificationsFromCamera (s : ObsDepth) (cameraName : String) (n : Int) :
    Except VisError (List Classification) :=
  .error .unimplemented

/-- `Classifications` (source lines 281–283). -/
def Classifications (s : ObsDepth) (img : Image) (n : Int) :
    Except VisError (List Classification) :=
  .error .unimplemented

/-- `DoCommand` (source lines 285–287); the command map is opaque. -/
def DoCommand (s : ObsDepth) (cmd : List (String × String)) :
    Except VisError (List (String × String)) :=
  .error .unimplemented

/-! ## Concrete fixtures used by counterexamples and witnesses -/

/-- A concrete intrinsics value. -/
def intr0 : PinholeCameraIntrinsics := ⟨640, 480, 1, 1, 0, 0⟩

/-- A stand-in for the external `depthadapter.ToPointCloud`. -/
def tpc0 : DepthMap → PinholeCameraIntrinsics → PointCloud := fun _ _ => []

/-- A stand-in for the external `segmentation.ApplyERCCLToPointCloud`. -/
def ae0 : PointCloud → ErCCLConfig → Except VisError (List VisObject) :=
  fun _ _ => .ok []

/-- An in-range configuration with no default camera. -/
def confGood : ObsDepthConfig := ⟨1, 1, 1, 1, 1, 0, ""⟩

/-- A configuration with `clustering_strictness = 0`. -/
def confBadStrict : ObsDepthConfig := ⟨1, 1, 1, 1, 0, 0, ""⟩

/-- An in-range configuration naming a default camera. -/
def confInRangeBadCam : ObsDepthConfig := ⟨1, 1, 1, 1, 1, 0, "cam"⟩

/-- A camera whose properties call fails and that serves one 1-pixel
depth image of 5 mm. -/
def camNoProps : Camera := ⟨"c", none, some ⟨some ⟨[5]⟩⟩⟩

/-- A camera reporting intrinsics and serving one 1-pixel depth image. -/
def camWithIntr : Camera := ⟨"c", some ⟨some intr0⟩, some ⟨some ⟨[5]⟩⟩⟩

/-- A service state with no default camera. -/
def o0 : ObsDepth := ⟨buildClusteringConf confGood, none, [], "v", none⟩

/-- A service state whose default camera is `camNoProps`. -/
def sCam : ObsDepth := ⟨buildClusteringConf confGood, none, [], "v", some camNoProps⟩

/-! ## Claim C1 -/

/-- The fallback contract exactly as the spec words it (§4.4): the median
is taken over the *valid* (non-zero) readings only, and a map with zero
valid readings is an error. Stated per depth map, for comparison with
`fallbackMedianCore`. -/
def fallbackSpecClaimAt (dm : DepthMap) : Prop :=
  let valid := dm.data.filter (fun d => d ≠ 0)
  if valid.length = 0 then
    (fallbackMedianCore dm).2 = .error .emptyDepthData
  else
    (fallbackMedianCore dm).2 =
      .ok [⟨.point ⟨0, 0, ((sortDepthData valid).getD (valid.length / 2) 0 : Int)⟩ ""⟩]

/-- C1 (counterexample): on the depth map whose only reading is the
invalid value 0 the spec demands `EmptyDepthDataError`, but the code
returns the obstacle `(0, 0, 0)` — the code never filters out invalid
readings. -/
theorem C1_fallback_valid_readings_cex : ¬ fallbackSpecClaimAt ⟨[0]⟩ := by
  intro h
  simp only [fallbackSpecClaimAt] at h
  norm_num [fallbackMedianCore, sortDepthData] at h
  exact Except.noConfusion h

/-- C1 (amended): the fallback path returns exactly one obstacle whose
geometry is the single point `(0, 0, m)`, where `m` is the element at
index `⌊0.5 · count⌋` of *all* depth readings (zero/invalid readings
included) in ascending order; it fails only when the depth map has zero
readings in total. -/
theorem C1_fallback_median_of_all_readings (dm : DepthMap) :
    (dm.data = [] → (fallbackMedianCore dm).2 = .error .emptyDepthData) ∧
    (dm.data ≠ [] → (fallbackMedianCore dm).2 =
      .ok [⟨.point ⟨0, 0,
        ((sortDepthData dm.data).getD (dm.data.length / 2) 0 : Int)⟩ ""⟩]) := by
  have hl : (sortDepthData dm.data).length = dm.data.length :=
    (List.perm_insertionSort _ dm.data).length_eq
  constructor
  · intro h
    simp [fallbackMedianCore, h]
  · intro h
    have hne : dm.data.length ≠ 0 := by simpa using List.length_pos.mpr h |>.ne'
    simp [fallbackMedianCore, hne, hl]

/-- C1 (witness): on the spec's own example `[10, 20, 30, 40, 50]` the
amended statement yields the single obstacle `(0, 0, 30)`. -/
theorem C1_fallback_median_witness :
    (fallbackMedianCore ⟨[10, 20, 30, 40, 50]⟩).2 =
      .ok [⟨.point ⟨0, 0, 30⟩ ""⟩] := by
  have h := (C1_fallback_median_of_all_readings ⟨[10, 20, 30, 40, 50]⟩).2 (by decide)
  rw [h]
  norm_num [sortDepthData]

/-! ## Claim C2 -/

/-- C2 (counterexample): the fallback median computation mutates the
depth map: on the map with cells `[20, 10]`, the cells after the call are
`[10, 20]` — `sort.Slice` reorders the slice returned by `dm.Data()`,
which is a view of the depth map's backing array. -/
theorem C2_depth_map_mutated_cex :
    (fallbackMedianCore ⟨[20, 10]⟩).1 ≠ ⟨[20, 10]⟩ := by
  intro h
  have := congrArg DepthMap.data h
  norm_num [fallbackMedianCore, sortDepthData] at this

/-- C2 (amended): the fallback median computation sorts the depth map's
cells in place: after the call the cells are exactly the ascending
rearrangement of the cells read from the camera (a permutation — no cell
value is created or lost — but the arrangement changes whenever the data
was not already sorted). The empty-data error path leaves the map
untouched. -/
theorem C2_fallback_sorts_in_place (dm : DepthMap) :
    (fallbackMedianCore dm).1.data = sortDepthData dm.data ∧
    ((fallbackMedianCore dm).1.data).Perm dm.data ∧
    List.Sorted (· ≤ ·) (fallbackMedianCore dm).1.data := by
  have hperm : (sortDepthData dm.data).Perm dm.data :=
    List.perm_insertionSort _ dm.data
  have hsort : List.Sorted (· ≤ ·) (sortDepthData dm.data) :=
    List.sorted_insertionSort _ dm.data
  have hmain : (fallbackMedianCore dm).1.data = sortDepthData dm.data := by
    by_cases h : dm.data.length = 0
    · have h0 : dm.data = [] := List.length_eq_zero.mp h
      simp [fallbackMedianCore, h, h0, sortDepthData]
    · simp [fallbackMedianCore, h]
  refine ⟨hmain, ?_, ?_⟩
  · rw [hmain]; exact hperm
  · rw [hmain]; exact hsort

/-- Helper: the fallback path can only produce one of its three own error
sites or a success; in particular it never produces the intrinsics-guard
error or the config-validation error. -/
theorem obsDepthNoIntrinsics_shape (cam : Camera) :
    obsDepthNoIntrinsics cam = .error (.couldNotGetImage cam.camName) ∨
    obsDepthNoIntrinsics cam = .error .couldNotConvertImage ∨
    obsDepthNoIntrinsics cam = .error .emptyDepthData ∨
    ∃ objs, obsDepthNoIntrinsics cam = .ok objs := by
  cases him : cam.imageResult with
  | none => exact Or.inl (by simp [obsDepthNoIntrinsics, him])
  | some img =>
    cases hd : img.depth with
    | none => exact Or.inr (Or.inl (by simp [obsDepthNoIntrinsics, him, hd]))
    | some dm =>
      by_cases h : dm.data.length = 0
      · exact Or.inr (Or.inr (Or.inl (by
          simp [obsDepthNoIntrinsics, him, hd, fallbackMedianCore, h])))
      · refine Or.inr (Or.inr (Or.inr ?_))
        simp only [obsDepthNoIntrinsics, him, hd, fallbackMedianCore, if_neg h]
        exact ⟨_, rfl⟩

/-! ## Claim C3 -/

/-- C3 (counterexample): the pipeline is not pure with respect to the
service state: with a camera that reports intrinsics, `buildObsDepth`
writes the service's `intrinsics` field (source line 146), so the state
after the call differs from the state before it. -/
theorem C3_service_state_written_cex :
    (buildObsDepth tpc0 ae0 o0 camWithIntr).1 ≠ o0 := by
  intro h
  have h2 := congrArg ObsDepth.intrinsics h
  simp [buildObsDepth, o0, camWithIntr] at h2

/-- C3 (amended): the fallback path leaves the service state unchanged,
and the calibrated path changes exactly the `intrinsics` field, caching
the intrinsics reported by the camera; every other field is preserved. -/
theorem C3_state_effect
    (tpc : DepthMap → PinholeCameraIntrinsics → PointCloud)
    (ae : PointCloud → ErCCLConfig → Except VisError (List VisObject))
    (o : ObsDepth) (cam : Camera) :
    (cam.propertiesResult = none → (buildObsDepth tpc ae o cam).1 = o) ∧
    (∀ props, cam.propertiesResult = some props →
       props.intrinsicParams = none → (buildObsDepth tpc ae o cam).1 = o) ∧
    (∀ props intr, cam.propertiesResult = some props →
       props.intrinsicParams = some intr →
       (buildObsDepth tpc ae o cam).1 = { o with intrinsics := some intr }) := by
  refine ⟨?_, ?_, ?_⟩
  · intro h
    simp [buildObsDepth, h]
  · intro props h1 h2
    simp [buildObsDepth, h1, h2]
  · intro props intr h1 h2
    simp [buildObsDepth, h1, h2]

/-- C3 (witness): at the concrete fixture with intrinsics present, the
post-call state is the pre-call state with the intrinsics cached. -/
theorem C3_state_effect_witness :
    (buildObsDepth tpc0 ae0 o0 camWithIntr).1 =
      { o0 with intrinsics := some intr0 } :=
  (C3_state_effect tpc0 ae0 o0 camWithIntr).2.2 ⟨some intr0⟩ intr0 rfl rfl

/-! ## Claim C4 -/

/-- C4: when the properties call fails or reports no intrinsics, the
pipeline takes exactly the fallback path — whose possible outcomes never
include the missing-intrinsics error — and the calibrated path is taken
only when intrinsics are present. -/
theorem C4_fallback_on_missing_intrinsics
    (tpc : DepthMap → PinholeCameraIntrinsics → PointCloud)
    (ae : PointCloud → ErCCLConfig → Except VisError (List VisObject))
    (o : ObsDepth) (cam : Camera) :
    (cam.propertiesResult = none →
       (buildObsDepth tpc ae o cam).2 = obsDepthNoIntrinsics cam) ∧
    (∀ props, cam.propertiesResult = some props →
       props.intrinsicParams = none →
       (buildObsDepth tpc ae o cam).2 = obsDepthNoIntrinsics cam) ∧
    (obsDepthNoIntrinsics cam ≠ .error .noIntrinsicsFound) ∧
    (∀ props intr, cam.propertiesResult = some props →
       props.intrinsicParams = some intr →
       (buildObsDepth tpc ae o cam).2 =
         obsDepthWithIntrinsics tpc ae { o with intrinsics := some intr } cam) := by
  refine ⟨?_, ?_, ?_, ?_⟩
  · intro h
    simp [buildObsDepth, h]
  · intro props h1 h2
    simp [buildObsDepth, h1, h2]
  · rcases obsDepthNoIntrinsics_shape cam with h | h | h | ⟨objs, h⟩ <;>
      simp [h]
  · intro props intr h1 h2
    simp [buildObsDepth, h1, h2]

/-- C4 (witness): at a concrete camera whose properties call fails, the
pipeline result is the fallback result. -/
theorem C4_fallback_witness :
    (buildObsDepth tpc0 ae0 o0 camNoProps).2 = obsDepthNoIntrinsics camNoProps :=
  (C4_fallback_on_missing_intrinsics tpc0 ae0 o0 camNoProps).1 rfl

/-! ## Claim C5 -/

/-- C5 (counterexample): an in-range configuration (its built clustering
config passes validation) that names a default camera absent from the
dependency set still fails construction — so "for every in-range
configuration, construction succeeds" does not hold as stated. -/
theorem C5_register_inrange_cex :
    (buildClusteringConf confInRangeBadCam).checkValid = true ∧
    registerObstaclesDepth "v" (some confInRangeBadCam) [] =
      .error (.cameraNotFound "cam") := by
  constructor
  · rfl
  · rfl

/-- C5 (amended): out-of-range clustering parameters
(`clustering_strictness = 0` or `> 1`, `min_points_in_plane = 0`) are
rejected with the configuration-validation error at construction time;
an in-range configuration constructs successfully provided its default
camera, when named, resolves in the dependency set; and the per-frame
path never re-validates: it leaves the stored clustering configuration
untouched and its own code never produces the validation error. -/
theorem C5_config_validated_at_construction (resName : String)
    (conf : ObsDepthConfig) (deps : List (String × Camera)) :
    (conf.clusteringStrictness = 0 ∨ 1 < conf.clusteringStrictness ∨
       conf.minPtsInPlane = 0 →
       registerObstaclesDepth resName (some conf) deps =
         .error .invalidClusteringConfig) ∧
    ((buildClusteringConf conf).checkValid = true →
       conf.defaultCamera = "" ∨
         (cameraFromDependencies deps conf.defaultCamera).isSome = true →
       (registerObstaclesDepth resName (some conf) deps).isOk = true) ∧
    (∀ tpc ae (o : ObsDepth) (cam : Camera),
       (buildObsDepth tpc ae o cam).1.clusteringConf = o.clusteringConf ∧
       obsDepthNoIntrinsics cam ≠ .error .invalidClusteringConfig) := by
  refine ⟨?_, ?_, ?_⟩
  · intro h
    have hcv : (buildClusteringConf conf).checkValid = false := by
      rcases h with h | h | h
      · simp [ErCCLConfig.checkValid, buildClusteringConf, h]
      · simp [ErCCLConfig.checkValid, buildClusteringConf, not_le.mpr h]
      · simp [ErCCLConfig.checkValid, buildClusteringConf, h]
    simp [registerObstaclesDepth, hcv]
  · intro hcv hcam
    rcases hcam with hcam | hcam
    · simp [registerObstaclesDepth, hcv, hcam, Except.isOk, Except.toBool]
    · obtain ⟨cam, hc⟩ := Option.isSome_iff_exists.mp hcam
      by_cases he : conf.defaultCamera = ""
      · simp [registerObstaclesDepth, hcv, he, Except.isOk, Except.toBool]
      · simp [registerObstaclesDepth, hcv, he, hc, Except.isOk, Except.toBool]
  · intro tpc ae o cam
    constructor
    · cases hp : cam.propertiesResult with
      | none => simp [buildObsDepth, hp]
      | some props =>
        cases hi : props.intrinsicParams with
        | none => simp [buildObsDepth, hp, hi]
        | some intr => simp [buildObsDepth, hp, hi]
    · rcases obsDepthNoIntrinsics_shape cam with h | h | h | ⟨objs, h⟩ <;>
        simp [h]

/-- C5 (witness): `clustering_strictness = 0` is rejected at construction
with the validation error, and an in-range configuration with no default
camera constructs successfully. -/
theorem C5_config_validated_witness :
    registerObstaclesDepth "v" (some confBadStrict) [] =
      .error .invalidClusteringConfig ∧
    (registerObstaclesDepth "v" (some confGood) []).isOk = true := by
  constructor
  · exact (C5_config_validated_at_construction "v" confBadStrict []).1 (Or.inl rfl)
  · exact (C5_config_validated_at_construction "v" confGood []).2.1 rfl (Or.inl rfl)

/-! ## Claim C6 -/

/-- C6: `GetProperties` always returns exactly the capability set
{object point clouds: true, detections: false, classifications: false}
and never an error. -/
theorem C6_get_properties (s : ObsDepth) :
    GetProperties s = .ok { classificationSupported := false,
                            detectionSupported := false,
                            objectPCDsSupported := true } := rfl

/-! ## Claim C7 -/

/-- C7: every unsupported operation — `Detections`,
`DetectionsFromCamera`, `Classifications`, `ClassificationsFromCamera`,
`DoCommand` — returns the tagged unimplemented error on every input,
never a successful empty result. -/
theorem C7_unsupported_ops_error (s : ObsDepth) (cameraName : String)
    (img : Image) (n : Int) (cmd : List (String × String)) :
    DetectionsFromCamera s cameraName = .error .unimplemented ∧
    Detections s img = .error .unimplemented ∧
    ClassificationsFromCamera s cameraName n = .error .unimplemented ∧
    Classifications s img n = .error .unimplemented ∧
    DoCommand s cmd = .error .unimplemented :=
  ⟨rfl, rfl, rfl, rfl, rfl⟩

/-! ## Claim C8 -/

/-- C8 (counterexample): the ground normal is not configurable — no
configuration whatsoever yields a clustering configuration whose normal
vector differs from the hard-coded `(0, -1, 0)` (the configuration
surface `ObsDepthConfig` has no ground-normal field at all). -/
theorem C8_normal_not_configurable_cex :
    ¬ ∃ conf : ObsDepthConfig,
        (buildClusteringConf conf).normalVec ≠ ⟨0, -1, 0⟩ := by
  rintro ⟨conf, h⟩
  exact h rfl

/-- C8 (amended): every successfully constructed service holds the
clustering normal vector `(0, -1, 0)`: the downward default is hard-coded
and `ObsDepthConfig` offers no field to override it. -/
theorem C8_normal_vec_always_down (resName : String) (conf : ObsDepthConfig)
    (deps : List (String × Camera)) (s : ObsDepth)
    (h : registerObstaclesDepth resName (some conf) deps = .ok s) :
    s.clusteringConf.normalVec = ⟨0, -1, 0⟩ := by
  simp only [registerObstaclesDepth] at h
  split at h
  · split at h
    · injection h with h
      subst h
      rfl
    · split at h
      · injection h with h
        subst h
        rfl
      · exact absurd h (by simp)
  · exact absurd h (by simp)

/-- C8 (witness): the concrete in-range configuration constructs the
service state `o0`, whose stored normal vector is `(0, -1, 0)`. -/
theorem C8_normal_vec_witness : o0.clusteringConf.normalVec = ⟨0, -1, 0⟩ :=
  C8_normal_vec_always_down "v" confGood [] o0 rfl

/-! ## Claim C9 -/

/-- C9: with an empty camera name and no configured default camera both
entry points fail with the no-camera error (and produce no obstacles);
a non-empty name is resolved through the dependency set (failing when
absent); the default camera is consulted only when the name is empty. -/
theorem C9_camera_resolution
    (tpc : DepthMap → PinholeCameraIntrinsics → PointCloud)
    (ae : PointCloud → ErCCLConfig → Except VisError (List VisObject))
    (s : ObsDepth) (cameraName : String) (opts : CaptureOptions) :
    (cameraName = "" → s.defaultCamera = none →
       GetObjectPointClouds tpc ae s cameraName =
         (s, .error .noCameraSpecified) ∧
       CaptureAllFromCamera tpc ae s cameraName opts =
         (s, .error .noCameraSpecified)) ∧
    (cameraName ≠ "" → cameraFromDependencies s.deps cameraName = none →
       GetObjectPointClouds tpc ae s cameraName =
         (s, .error (.cameraNotFound cameraName)) ∧
       CaptureAllFromCamera tpc ae s cameraName opts =
         (s, .error (.cameraNotFound cameraName))) ∧
    (∀ cam, cameraName ≠ "" →
       cameraFromDependencies s.deps cameraName = some cam →
       GetObjectPointClouds tpc ae s cameraName = buildObsDepth tpc ae s cam) ∧
    (∀ cam, cameraName = "" → s.defaultCamera = some cam →
       GetObjectPointClouds tpc ae s cameraName = buildObsDepth tpc ae s cam) := by
  refine ⟨?_, ?_, ?_, ?_⟩
  · intro h1 h2
    constructor
    · simp [GetObjectPointClouds, h1, h2]
    · simp [CaptureAllFromCamera, h1, h2]
  · intro h1 h2
    constructor
    · simp [GetObjectPointClouds, h1, h2]
    · simp [CaptureAllFromCamera, h1, h2]
  · intro cam h1 h2
    simp [GetObjectPointClouds, h1, h2]
  · intro cam h1 h2
    simp [GetObjectPointClouds, h1, h2]

/-- C9 (witness): on the concrete state with no default camera, the call
with an empty name fails with the no-camera error. -/
theorem C9_camera_resolution_witness :
    GetObjectPointClouds tpc0 ae0 o0 "" = (o0, .error .noCameraSpecified) :=
  ((C9_camera_resolution tpc0 ae0 o0 "" ⟨false, false⟩).1 rfl rfl).1

/-! ## Claim C10 -/

/-- C10: every successful capture carries non-nil empty `Detections` and
`Classifications`, and its `Image` / `Objects` fields are populated
exactly when the corresponding capture option is set. -/
theorem C10_capture_fields
    (tpc : DepthMap → PinholeCameraIntrinsics → PointCloud)
    (ae : PointCloud → ErCCLConfig → Except VisError (List VisObject))
    (s : ObsDepth) (cameraName : String) (opts : CaptureOptions)
    (s2 : ObsDepth) (cap : VisCapture)
    (h : CaptureAllFromCamera tpc ae s cameraName opts = (s2, .ok cap)) :
    cap.detections = some [] ∧ cap.classifications = some [] ∧
    (opts.returnImage = false → cap.image = none) ∧
    (opts.returnImage = true → cap.image.isSome = true) ∧
    (opts.returnObject = false → cap.objects = none) ∧
    (opts.returnObject = true → cap.objects.isSome = true) := by
  simp only [CaptureAllFromCamera] at h
  split at h
  · simp [Prod.ext_iff] at h
  · rename_i cam hcam
    split at h
    · simp [Prod.ext_iff] at h
    · rename_i imgOpt himg
      have himage : (opts.returnImage = false → imgOpt = none) ∧
          (opts.returnImage = true → imgOpt.isSome = true) := by
        constructor
        · intro hri
          rw [hri] at himg
          simp at himg
          exact himg.symm
        · intro hri
          rw [hri] at himg
          simp only [if_true] at himg
          cases hir : cam.imageResult with
          | none => rw [hir] at himg; exact absurd himg (by simp)
          | some img =>
            rw [hir] at himg
            simp at himg
            rw [← himg]
            rfl
      by_cases hro : opts.returnObject
      · rw [if_pos hro] at h
        split at h
        · simp [Prod.ext_iff] at h
        · rename_i s3 objs hobj
          have hsnd := congrArg Prod.snd h
          injection hsnd with hcap
          subst hcap
          refine ⟨rfl, rfl, ?_, ?_, ?_, ?_⟩
          · exact fun hri => himage.1 hri
          · exact fun hri => himage.2 hri
          · intro hc
            rw [hro] at hc
            exact absurd hc (by simp)
          · intro _
            rfl
      · rw [if_neg hro] at h
        have hsnd := congrArg Prod.snd h
        injection hsnd with hcap
        subst hcap
        refine ⟨rfl, rfl, ?_, ?_, ?_, ?_⟩
        · exact fun hri => himage.1 hri
        · exact fun hri => himage.2 hri
        · intro _
          rfl
        · intro hc
          rw [hc] at hro
          exact absurd rfl hro

/-- The capture produced by the concrete successful run used as the C10
witness. -/
def cap0 : VisCapture :=
  { image := some ⟨some ⟨[5]⟩⟩,
    objects := some [⟨.point ⟨0, 0, 5⟩ ""⟩],
    detections := some [], classifications := some [] }

/-- C10 (witness): a concrete successful capture (default camera, both
options set) has non-nil empty detections and classifications and
populated image and objects. -/
theorem C10_capture_fields_witness :
    cap0.detections = some [] ∧ cap0.classifications = some [] ∧
    ((⟨true, true⟩ : CaptureOptions).returnImage = false → cap0.image = none) ∧
    ((⟨true, true⟩ : CaptureOptions).returnImage = true →
       cap0.image.isSome = true) ∧
    ((⟨true, true⟩ : CaptureOptions).returnObject = false →
       cap0.objects = none) ∧
    ((⟨true, true⟩ : CaptureOptions).returnObject = true →
       cap0.objects.isSome = true) :=
  C10_capture_fields tpc0 ae0 sCam "" ⟨true, true⟩ sCam cap0 rfl

end ObstaclesDepth
